import Mathlib

/-!
Verification of the OAuth/PKCE token-lifecycle and resilient-request core of
the reaudit-mcp-server repository.  The TypeScript sources are shallowly
embedded: pure functions become Lean functions, the event-loop side effects
(HTTP calls, token refresh, interactive authentication, disk writes) are
threaded as explicit state together with environment functions giving the
outcome of each external call, and JavaScript exceptions become `Except`
values.  Machine integers are `Nat`/`Int`; `Date.now()` is an explicit
`nowMs : Int` parameter; `Math.random()` is an explicit rational parameter.
-/

namespace Reaudit

/-! ## Error handler (src/lib/error-handler.ts) -/

/-- The `ErrorCategory` enum from the error handler. -/
inductive ErrorCategory where
  | authentication
  | authorization
  | rateLimit
  | notFound
  | validation
  | server
  | network
  | unknown
deriving DecidableEq, Repr

/-- The JSON body attached to an Axios error response
(`data?.error_description || data?.message || data?.error`). -/
structure AxiosData where
  error_description : Option String
  message : Option String
  errorMsg : Option String
deriving DecidableEq, Repr

/-- The `retry-after` response header: either `parseInt` succeeds (numeric)
or the header parses as an HTTP date with the given epoch milliseconds. -/
inductive RetryAfterHeader where
  | numeric (n : Int)
  | httpDate (epochMs : Int)
deriving DecidableEq, Repr

/-- The `response` part of an `AxiosError` (present iff a response arrived). -/
structure AxiosResponse where
  status : Option Nat
  data : Option AxiosData
  retryAfterHeader : Option RetryAfterHeader
deriving DecidableEq, Repr

/-- A thrown JavaScript value: an `AxiosError` (with optional response), an
ordinary `Error`, or any other thrown value (stringified by `String(error)`). -/
inductive JsError where
  | axios (message : String) (response : Option AxiosResponse)
  | plain (message : String)
  | nonError (value : String)
deriving DecidableEq, Repr

/-- The structured `MCPError` produced by `parseError`. -/
structure MCPError where
  category : ErrorCategory
  message : String
  userMessage : String
  suggestion : Option String
  retryable : Bool
  retryAfter : Option Int
  originalError : Option JsError
deriving DecidableEq, Repr

/-- JavaScript `a || d` for an optional string `a` (empty string is falsy). -/
def jsOrD (o : Option String) (d : String) : String :=
  match o with
  | some s => if s = "" then d else s
  | none => d

/-- Truthiness normalisation of an optional string (`undefined` and `""` are falsy). -/
def jsTruthy (o : Option String) : Option String :=
  match o with
  | some s => if s = "" then none else some s
  | none => none

/-- The `categorizeHttpError`: map HTTP status codes to error categories. -/
def categorizeHttpError (status : Nat) : ErrorCategory :=
  match status with
  | 401 => .authentication
  | 403 => .authorization
  | 404 => .notFound
  | 422 => .validation
  | 400 => .validation
  | 429 => .rateLimit
  | 500 => .server
  | 502 => .server
  | 503 => .server
  | 504 => .server
  | _ => .unknown

/-- The `getUserMessage`: fixed user-facing message per category, with the API
detail string (when truthy) taking precedence for some categories. -/
def getUserMessage (category : ErrorCategory) (details : Option String) : String :=
  match category with
  | .authentication => "Your session has expired. Please re-authenticate with Reaudit."
  | .authorization =>
      jsOrD details "You don\x27t have permission to perform this action. Check your subscription tier."
  | .rateLimit =>
      "You\x27ve reached your usage limit. Please wait before trying again or upgrade your plan."
  | .notFound =>
      jsOrD details "The requested resource was not found. It may have been deleted or you may not have access."
  | .validation => jsOrD details "Invalid request. Please check your input and try again."
  | .server => "Reaudit is experiencing issues. Please try again in a few minutes."
  | .network => "Unable to connect to Reaudit. Please check your internet connection."
  | .unknown => "An unexpected error occurred. Please try again."

/-- The `getSuggestion`: fixed recovery suggestion per category (none for
validation and unknown, which fall to the switch default). -/
def getSuggestion (category : ErrorCategory) : Option String :=
  match category with
  | .authentication => some "Delete ~/.reaudit/credentials.json and restart to re-authenticate."
  | .authorization => some "Visit https://reaudit.io/settings to check your subscription."
  | .rateLimit => some "Use get_usage_summary to check your current limits."
  | .notFound => some "Use list_projects or list_audits to find valid IDs."
  | .server => some "Check https://status.reaudit.io for service status."
  | .network => some "Verify you can access https://reaudit.io in your browser."
  | .validation => none
  | .unknown => none

/-- The `isRetryable`: only rate-limit, server and network errors are retryable. -/
def isRetryable (category : ErrorCategory) : Bool :=
  match category with
  | .rateLimit => true
  | .server => true
  | .network => true
  | _ => false

/-- The `status || 500` (0 and `undefined` are falsy). -/
def statusOr500 (s : Option Nat) : Nat :=
  match s with
  | some v => if v = 0 then 500 else v
  | none => 500

/-- The `Math.ceil(a / 1000)` on integer milliseconds. -/
def ceilDiv1000 (a : Int) : Int :=
  Int.fdiv (a + 999) 1000

/-- The `parseError`: classify a thrown value into an `MCPError`.
`now` is `Date.now()` in milliseconds (used for a date-valued retry-after). -/
def parseError (e : JsError) (now : Int) : MCPError :=
  match e with
  | .axios msg response =>
    match response with
    | none =>
        { category := .network
          message := msg
          userMessage := getUserMessage .network none
          suggestion := getSuggestion .network
          retryable := true
          retryAfter := some 5
          originalError := some e }
    | some r =>
        let category := categorizeHttpError (statusOr500 r.status)
        let apiMessage : Option String :=
          match r.data with
          | none => none
          | some d => (jsTruthy d.error_description <|> jsTruthy d.message) <|> jsTruthy d.errorMsg
        let headerRetryAfter : Option Int :=
          if category = .rateLimit then
            match r.retryAfterHeader with
            | some (.numeric n) => some n
            | some (.httpDate t) => some (ceilDiv1000 (t - now))
            | none => none
          else none
        let fallbackRetryAfter : Option Int :=
          if isRetryable category then some 30 else none
        { category := category
          message := jsOrD apiMessage msg
          userMessage := getUserMessage category apiMessage
          suggestion := getSuggestion category
          retryable := isRetryable category
          retryAfter :=
            match headerRetryAfter with
            | some v => if v = 0 then fallbackRetryAfter else some v
            | none => fallbackRetryAfter
          originalError := some e }
  | .plain msg =>
      { category := .unknown
        message := msg
        userMessage := getUserMessage .unknown none
        suggestion := none
        retryable := false
        retryAfter := none
        originalError := some e }
  | .nonError v =>
      { category := .unknown
        message := v
        userMessage := getUserMessage .unknown none
        suggestion := none
        retryable := false
        retryAfter := none
        originalError := none }

/-- The `formatErrorForUser`: markdown rendering of an `MCPError`. -/
def formatErrorForUser (err : MCPError) : String :=
  let m1 := "**Error:** " ++ err.userMessage
  let m2 :=
    match err.suggestion with
    | some s => m1 ++ "\n\n**Suggestion:** " ++ s
    | none => m1
  match err.retryAfter with
  | some r =>
      if err.retryable ∧ r ≠ 0 then
        m2 ++ "\n\n*This error may be temporary. Try again in " ++ toString r ++ " seconds.*"
      else m2
  | none => m2

/-- The `RetryConfig`. -/
structure RetryConfig where
  maxRetries : Nat
  baseDelay : Nat
  maxDelay : Nat
  retryableCategories : List ErrorCategory
deriving DecidableEq, Repr

/-- The `DEFAULT_RETRY_CONFIG`. -/
def DEFAULT_RETRY_CONFIG : RetryConfig :=
  { maxRetries := 3
    baseDelay := 1000
    maxDelay := 30000
    retryableCategories := [.rateLimit, .server, .network] }

/-- The `calculateRetryDelay`: exponential backoff with jitter.  `rand` is the
`Math.random()` draw in `[0, 1)`; JavaScript `Math.round` is `round`
(floor of x + 1/2). -/
def calculateRetryDelay (attempt : Nat) (config : RetryConfig) (rand : Rat) : Int :=
  let delay : Rat := min ((config.baseDelay : Rat) * 2 ^ attempt) ((config.maxDelay : Rat))
  let jitter : Rat := delay * (1 / 5) * (rand - 1 / 2)
  round (delay + jitter)

deriving instance DecidableEq for Except

/-- Result of a `withRetry` run, instrumented with the number of invocations
of the operation, the waits performed between retries (milliseconds), and the
errors caught from each failing invocation (in order). -/
structure RetryOut (σ T : Type) where
  result : Except JsError T
  state : σ
  calls : Nat
  delays : List Int
  caught : List JsError
deriving DecidableEq, Repr

/-- The loop body of `withRetry`.  `remaining` counts the retries still
allowed (`remaining = maxRetries - attempt`); when it is zero the code path
`attempt === maxRetries` rethrows unconditionally.  The operation is a state
transformer so that stateful operations (such as the API facade) can be run
under it; the state advances on every invocation. -/
def withRetryGo (fn : σ → Except JsError T × σ) (config : RetryConfig)
    (rand : Nat → Rat) (now : Int) : Nat → σ → RetryOut σ T
  | 0, st =>
    match fn st with
    | (.ok v, st1) => ⟨.ok v, st1, 1, [], []⟩
    | (.error e, st1) => ⟨.error e, st1, 1, [], [e]⟩
  | remaining + 1, st =>
    match fn st with
    | (.ok v, st1) => ⟨.ok v, st1, 1, [], []⟩
    | (.error e, st1) =>
      let lastError := parseError e now
      if lastError.retryable = false ∨ lastError.category ∉ config.retryableCategories then
        ⟨.error e, st1, 1, [], [e]⟩
      else
        let attempt := config.maxRetries - (remaining + 1)
        let delay : Int :=
          match lastError.retryAfter with
          | some r => if r = 0 then calculateRetryDelay attempt config (rand attempt) else r * 1000
          | none => calculateRetryDelay attempt config (rand attempt)
        let rest := withRetryGo fn config rand now remaining st1
        ⟨rest.result, rest.state, rest.calls + 1, delay :: rest.delays, e :: rest.caught⟩

/-- The `withRetry`: attempt the operation up to `maxRetries + 1` times. -/
def withRetry (fn : σ → Except JsError T × σ) (config : RetryConfig)
    (rand : Nat → Rat) (now : Int) (st : σ) : RetryOut σ T :=
  withRetryGo fn config rand now config.maxRetries st

/-- State of the operation after `k` invocations. -/
def stIter (fn : σ → Except JsError T × σ) : Nat → σ → σ
  | 0, st => st
  | k + 1, st => stIter fn k (fn st).2

/-! ## Token store (src/auth/token-store.ts)

The AES-256-CBC cipher keyed by SHA-256(hostname + username) is modelled as a
reversible keyed transformation: the per-field ciphertext (the source's
`ivHex:cipherHex` string) is represented by its initialization vector and a
payload obtained by shifting the plaintext code points by a key-and-iv
dependent amount.  Decryption with the stored iv inverts the shift and, like
`decipher.final`, can fail; `loadTokens` catches any such failure.  The file
system is an explicit `Option CredentialsFile` value (`none` = no file). -/

/-- Decrypted credential record (`StoredTokens`). -/
structure StoredTokens where
  accessToken : String
  refreshToken : String
  expiresAt : Int
  scope : String
deriving DecidableEq, Repr

/-- One encrypted field: the fresh random iv together with the cipher payload. -/
structure EncryptedField where
  iv : Nat
  payload : List Nat
deriving DecidableEq, Repr

/-- The `tokens` object of the persisted JSON envelope (cipher fields). -/
structure StoredTokensEnc where
  accessToken : EncryptedField
  refreshToken : EncryptedField
  expiresAt : Int
  scope : String
deriving DecidableEq, Repr

/-- The persisted JSON envelope (`TokenFile`). -/
structure TokenFile where
  version : Nat
  tokens : Option StoredTokensEnc
  baseUrl : String
deriving DecidableEq, Repr

/-- Contents of the credentials file: either a well-formed envelope or bytes
on which `JSON.parse` (or the subsequent field access) throws. -/
inductive CredentialsFile where
  | json (file : TokenFile)
  | corrupt (raw : String)
deriving DecidableEq, Repr

/-- The `FILE_VERSION`. -/
def FILE_VERSION : Nat := 1

/-- The `getEncryptionKey`: SHA-256 of `hostname + username`, modelled as a
deterministic digest of the machine-identity string. -/
def getEncryptionKey (machineId : String) : Nat :=
  machineId.data.foldl (fun h c => h * 256 + c.toNat + 1) 7

/-- The `encrypt`: one field enciphered under `key` with a fresh `iv`. -/
def encryptField (key iv : Nat) (text : String) : EncryptedField :=
  { iv := iv, payload := text.data.map (fun c => c.toNat + (key + iv)) }

/-- The `decrypt`: invert the keyed shift; throws (returns `.error`) when the
payload is not a valid ciphertext under this key. -/
def decryptField (key : Nat) (f : EncryptedField) : Except String String :=
  if f.payload.all (fun n => decide ((key + f.iv ≤ n) ∧ Nat.isValidChar (n - (key + f.iv)))) then
    .ok (String.mk (f.payload.map (fun n => Char.ofNat (n - (key + f.iv)))))
  else
    .error "bad decrypt"

/-- The `saveTokens`: write the versioned envelope with both token fields
encrypted independently under fresh ivs, tagged with the store's base URL. -/
def saveTokens (key : Nat) (baseUrl : String) (iv1 iv2 : Nat)
    (t : StoredTokens) : Option CredentialsFile :=
  some (.json
    { version := FILE_VERSION
      tokens := some
        { accessToken := encryptField key iv1 t.accessToken
          refreshToken := encryptField key iv2 t.refreshToken
          expiresAt := t.expiresAt
          scope := t.scope }
      baseUrl := baseUrl })

/-- The `loadTokens`: returns `none` (never throws) for a missing file, corrupt
JSON, wrong version, mismatched base URL, null `tokens`, or a decryption
failure on either field. -/
def loadTokens (key : Nat) (baseUrl : String) (fs : Option CredentialsFile) :
    Option StoredTokens :=
  match fs with
  | none => none
  | some (.corrupt _) => none
  | some (.json data) =>
    if data.version ≠ FILE_VERSION ∨ data.baseUrl ≠ baseUrl then none
    else
      match data.tokens with
      | none => none
      | some tk =>
        match decryptField key tk.accessToken, decryptField key tk.refreshToken with
        | .ok a, .ok r =>
            some { accessToken := a, refreshToken := r, expiresAt := tk.expiresAt, scope := tk.scope }
        | _, _ => none

/-- The `clearTokens`: delete the persisted file (tolerates absence). -/
def clearTokens (_fs : Option CredentialsFile) : Option CredentialsFile :=
  none

/-- The `isAccessTokenExpired`: true when no record loads, or when `Date.now()`
is within the 5-minute buffer of `expiresAt` (epoch seconds). -/
def isAccessTokenExpired (key : Nat) (baseUrl : String)
    (fs : Option CredentialsFile) (nowMs : Int) : Bool :=
  match loadTokens key baseUrl fs with
  | none => true
  | some tokens => decide (nowMs ≥ tokens.expiresAt * 1000 - 300000)

/-! ## OAuth client (src/auth/oauth-client.ts)

`getAccessToken` is modelled as a state transformer over the credentials
file together with call counters.  The outcomes of the external calls (the
refresh-grant POST and a full interactive `authenticate()` run) are supplied
by environment functions indexed by the number of such calls already made;
the fresh ivs drawn by each `saveTokens` come from an iv stream. -/

/-- The token endpoint's response body. -/
structure TokenResponse where
  access_token : String
  token_type : String
  expires_in : Int
  refresh_token : String
  scope : String
deriving DecidableEq, Repr

/-- Environment of the token lifecycle: machine key, base URL, current time,
and the outcome of each successive refresh exchange / interactive flow. -/
structure AuthEnv where
  machineKey : Nat
  baseUrl : String
  nowMs : Int
  refreshOutcome : Nat → Except JsError TokenResponse
  authOutcome : Nat → Except JsError TokenResponse
  ivSeq : Nat → Nat

/-- Mutable state threaded through the token lifecycle. -/
structure AuthState where
  fs : Option CredentialsFile
  refreshCalls : Nat
  authCalls : Nat
  saves : Nat
deriving DecidableEq, Repr

/-- The record persisted from a token response:
`expiresAt = Math.floor(Date.now() / 1000) + expires_in`, all fields rotated
wholesale. -/
def respToStored (nowMs : Int) (resp : TokenResponse) : StoredTokens :=
  { accessToken := resp.access_token
    refreshToken := resp.refresh_token
    expiresAt := Int.fdiv nowMs 1000 + resp.expires_in
    scope := resp.scope }

/-- Persist a record through the token store, drawing two fresh ivs. -/
def saveVia (env : AuthEnv) (st : AuthState) (record : StoredTokens) : AuthState :=
  { st with
    fs := saveTokens env.machineKey env.baseUrl
            (env.ivSeq (2 * st.saves)) (env.ivSeq (2 * st.saves + 1)) record
    saves := st.saves + 1 }

/-- The `authenticate()`: run one interactive OAuth flow; on success the returned
record is persisted and the access token resolved, on failure the attempt's
rejection propagates. -/
def authenticateM (env : AuthEnv) (st : AuthState) : Except JsError String × AuthState :=
  match env.authOutcome st.authCalls with
  | .ok resp =>
      let st1 := saveVia env { st with authCalls := st.authCalls + 1 } (respToStored env.nowMs resp)
      (.ok resp.access_token, st1)
  | .error e => (.error e, { st with authCalls := st.authCalls + 1 })

/-- The `getAccessToken()`: reuse an unexpired stored token, otherwise refresh
(persisting the new record wholesale), otherwise clear and re-authenticate. -/
def getAccessTokenM (env : AuthEnv) (st : AuthState) : Except JsError String × AuthState :=
  match loadTokens env.machineKey env.baseUrl st.fs with
  | some tokens =>
    if isAccessTokenExpired env.machineKey env.baseUrl st.fs env.nowMs = false then
      (.ok tokens.accessToken, st)
    else
      match env.refreshOutcome st.refreshCalls with
      | .ok resp =>
          let st1 := saveVia env { st with refreshCalls := st.refreshCalls + 1 }
                       (respToStored env.nowMs resp)
          (.ok resp.access_token, st1)
      | .error _ =>
          authenticateM env { st with refreshCalls := st.refreshCalls + 1, fs := none }
  | none => authenticateM env st

/-! ## API client facade (`ReauditAPIClient.request`)

One HTTP call either yields an `APIResponse` body (with its `success` flag,
optional `data`, and optional error strings) or throws.  Outcomes are indexed
by the number of HTTP calls already made.  A successful request returns
`response.data.data as T`, which is `undefined` when absent, hence the
`Option T` result. -/

/-- Outcome of one underlying `httpClient.request` call. -/
inductive HttpOutcome (T : Type) where
  | ok (success : Bool) (data : Option T) (error_description : Option String)
      (errorMsg : Option String)
  | thrown (e : JsError)

/-- Environment of a facade request. -/
structure FacadeEnv (T : Type) where
  auth : AuthEnv
  http : Nat → HttpOutcome T

/-- State threaded through a facade request; `tokensUsed` records the bearer
token attached to each successive HTTP call. -/
structure FacadeState where
  auth : AuthState
  httpCalls : Nat
  tokensUsed : List String
deriving DecidableEq, Repr

/-- The `error_description || error || "API request failed"`. -/
def apiFailMsg (ed er : Option String) : String :=
  match jsTruthy ed with
  | some s => s
  | none => jsOrD er "API request failed"

/-- One invocation of the operation the facade hands to `withRetry`: fetch a
token, issue the HTTP call, and on a 401 fetch a token again and replay the
request exactly once; any non-401 failure (or a `success: false` body) is
rethrown as a plain `Error` carrying the formatted user message, and a
failure of the replay propagates unchanged. -/
def requestFn (env : FacadeEnv T) (st : FacadeState) :
    Except JsError (Option T) × FacadeState :=
  match getAccessTokenM env.auth st.auth with
  | (.error e, a1) => (.error e, { st with auth := a1 })
  | (.ok accessToken, a1) =>
    let st1 : FacadeState :=
      { auth := a1, httpCalls := st.httpCalls + 1, tokensUsed := st.tokensUsed ++ [accessToken] }
    match env.http st.httpCalls with
    | .ok success data ed er =>
        if success then (.ok data, st1)
        else (.error (.plain (apiFailMsg ed er)), st1)
    | .thrown e =>
      match e with
      | .axios msg response =>
        match response with
        | some r =>
          if r.status = some 401 then
            match getAccessTokenM env.auth st1.auth with
            | (.error e2, a2) => (.error e2, { st1 with auth := a2 })
            | (.ok newToken, a2) =>
              let st2 : FacadeState :=
                { auth := a2, httpCalls := st1.httpCalls + 1
                  tokensUsed := st1.tokensUsed ++ [newToken] }
              match env.http st1.httpCalls with
              | .ok success data ed _ =>
                  if success then (.ok data, st2)
                  else (.error (.plain (jsOrD ed "API request failed")), st2)
              | .thrown e2 => (.error e2, st2)
          else
            (.error (.plain (formatErrorForUser (parseError (.axios msg response) env.auth.nowMs))), st1)
        | none =>
            (.error (.plain (formatErrorForUser (parseError (.axios msg response) env.auth.nowMs))), st1)
      | other => (.error other, st1)

/-- The `request`: the facade operation run under `withRetry` with the default
retry configuration. -/
def requestM (env : FacadeEnv T) (rand : Nat → Rat) (st : FacadeState) :
    RetryOut FacadeState (Option T) :=
  withRetry (requestFn env) DEFAULT_RETRY_CONFIG rand env.auth.nowMs st

/-! ## PKCE callback handling and listener lifecycle (`OAuthClient.authenticate`)

The local HTTP handler for `/callback` is a pure function of the query
parameters, the locally held `state`, and the outcome of the (potential)
code-exchange POST.  The whole attempt is a fold over the ordered events the
Node event loop delivers: callback requests and the firing of the 5-minute
`setTimeout` (which the source never cancels). -/

/-- Query parameters of a `/callback` request. -/
structure CallbackQuery where
  code : Option String
  state : Option String
  errorParam : Option String
deriving DecidableEq, Repr

/-- Terminal outcome of handling one callback. -/
inductive FlowOutcome where
  | denied (err : String)
  | stateMismatch
  | authenticated (accessToken : String)
  | exchangeFailed (e : JsError)
deriving DecidableEq, Repr

/-- Observable effects of handling one callback request. -/
structure CallbackResult where
  outcome : FlowOutcome
  exchangeCalled : Bool
  serverClosed : Bool
  savedRecord : Option StoredTokens
deriving DecidableEq, Repr

/-- The `/callback` handler: an `error` parameter rejects as Denied; next, a
`state` differing from the locally generated one rejects as a state-mismatch
security failure with no token-exchange call; otherwise the code is
exchanged, and the listener is closed on every branch. -/
def handleCallback (localState : String) (exchangeOutcome : Except JsError TokenResponse)
    (nowMs : Int) (q : CallbackQuery) : CallbackResult :=
  match q.errorParam with
  | some err =>
      { outcome := .denied err, exchangeCalled := false, serverClosed := true, savedRecord := none }
  | none =>
    if q.state ≠ some localState then
      { outcome := .stateMismatch, exchangeCalled := false, serverClosed := true, savedRecord := none }
    else
      match exchangeOutcome with
      | .ok resp =>
          { outcome := .authenticated resp.access_token, exchangeCalled := true
            serverClosed := true, savedRecord := some (respToStored nowMs resp) }
      | .error e =>
          { outcome := .exchangeFailed e, exchangeCalled := true
            serverClosed := true, savedRecord := none }

/-- How each terminal outcome settles the `authenticate()` promise. -/
def outcomeSettlement (o : FlowOutcome) : Except JsError String :=
  match o with
  | .denied err => .error (.plain ("OAuth error: " ++ err))
  | .stateMismatch => .error (.plain "State mismatch")
  | .authenticated tok => .ok tok
  | .exchangeFailed e => .error e

/-- An event delivered to one `authenticate()` attempt. -/
inductive AuthEvent where
  | callbackReq (q : CallbackQuery) (exchangeOutcome : Except JsError TokenResponse)
  | timeoutFire
deriving DecidableEq

/-- Observable state of one `authenticate()` attempt. -/
structure FlowState where
  listenerOpen : Bool
  closeCalls : Nat
  settled : Option (Except JsError String)
  exchanges : Nat
  savedRecords : List StoredTokens
deriving DecidableEq

/-- Process one event.  A callback reaching an already-closed listener is
refused; the timeout callback (never cancelled in the source) always runs
`server.close()` and `reject(new Error("Authentication timeout"))`; a settled
promise ignores later settlements. -/
def flowStep (localState : String) (nowMs : Int) (st : FlowState) (ev : AuthEvent) : FlowState :=
  match ev with
  | .timeoutFire =>
      { st with
        listenerOpen := false
        closeCalls := st.closeCalls + 1
        settled := some (st.settled.getD (.error (.plain "Authentication timeout"))) }
  | .callbackReq q ex =>
      if st.listenerOpen = false then st
      else
        let r := handleCallback localState ex nowMs q
        { listenerOpen := false
          closeCalls := st.closeCalls + 1
          settled := some (st.settled.getD (outcomeSettlement r.outcome))
          exchanges := st.exchanges + (if r.exchangeCalled then 1 else 0)
          savedRecords := st.savedRecords ++ r.savedRecord.toList }

/-- Initial state of an attempt, right after the listener binds. -/
def flowInit : FlowState :=
  { listenerOpen := true, closeCalls := 0, settled := none, exchanges := 0, savedRecords := [] }

/-- One whole `authenticate()` attempt over the ordered events it receives. -/
def runFlow (localState : String) (nowMs : Int) (events : List AuthEvent) : FlowState :=
  events.foldl (flowStep localState nowMs) flowInit

/-! ## Lemmas about the retry executor -/

theorem withRetryGo_calls_pos (fn : σ → Except JsError T × σ) (config : RetryConfig)
    (rand : Nat → Rat) (now : Int) :
    ∀ r st, 1 ≤ (withRetryGo fn config rand now r st).calls := by
  intro r st
  cases r with
  | zero =>
      simp only [withRetryGo]
      rcases h : fn st with ⟨res, st1⟩
      cases res <;> simp
  | succ n =>
      simp only [withRetryGo]
      rcases h : fn st with ⟨res, st1⟩
      cases res with
      | ok v => simp
      | error e =>
          dsimp only
          split
          · simp
          · simp

theorem withRetryGo_spec (fn : σ → Except JsError T × σ) (config : RetryConfig)
    (rand : Nat → Rat) (now : Int) :
    ∀ r st,
      (withRetryGo fn config rand now r st).calls ≤ r + 1
      ∧ ∀ e, (withRetryGo fn config rand now r st).result = .error e →
          (fn (stIter fn ((withRetryGo fn config rand now r st).calls - 1) st)).1 = .error e := by
  intro r
  induction r with
  | zero =>
      intro st
      simp only [withRetryGo]
      rcases h : fn st with ⟨res, st1⟩
      cases res with
      | ok v => simp
      | error e =>
          refine ⟨by simp, ?_⟩
          intro e' he'
          simp only [Except.error.injEq] at he'
          subst he'
          simp [stIter, h]
  | succ n ih =>
      intro st
      simp only [withRetryGo]
      rcases h : fn st with ⟨res, st1⟩
      cases res with
      | ok v => simp
      | error e =>
          dsimp only
          split
          · refine ⟨by simp, ?_⟩
            intro e' he'
            simp only [Except.error.injEq] at he'
            subst he'
            simp [stIter, h]
          · obtain ⟨hcalls, hres⟩ := ih st1
            have hpos := withRetryGo_calls_pos fn config rand now n st1
            refine ⟨by simp; omega, ?_⟩
            intro e' he'
            simp only at he'
            have h2 := hres e' he'
            have hstep : stIter fn ((withRetryGo fn config rand now n st1).calls) st
                = stIter fn ((withRetryGo fn config rand now n st1).calls - 1) st1 := by
              obtain ⟨k, hk⟩ : ∃ k, (withRetryGo fn config rand now n st1).calls = k + 1 :=
                ⟨(withRetryGo fn config rand now n st1).calls - 1, by omega⟩
              rw [hk]
              simp [stIter, h]
            simpa [Nat.add_sub_cancel, hstep] using h2

theorem withRetry_first_not_in_set (fn : σ → Except JsError T × σ) (config : RetryConfig)
    (rand : Nat → Rat) (now : Int) (st : σ) (e : JsError)
    (hfail : (fn st).1 = .error e)
    (hcat : (parseError e now).category ∉ config.retryableCategories) :
    (withRetry fn config rand now st).calls = 1
      ∧ (withRetry fn config rand now st).result = .error e := by
  unfold withRetry
  rcases h : fn st with ⟨res, st1⟩
  rw [h] at hfail
  dsimp only at hfail
  subst hfail
  cases config.maxRetries with
  | zero => simp [withRetryGo, h]
  | succ n =>
      simp only [withRetryGo]
      rw [h]
      dsimp only
      rw [if_pos (Or.inr hcat)]
      exact ⟨rfl, rfl⟩

/-- C1: for every operation and every retry policy with `maxRetries = N`,
`withRetry` invokes the operation at most `N + 1` times; it invokes it
exactly once (rethrowing that failure) when the first failure's classified
category is not in the configured retryable set; and whenever it ends in
failure the raised error is exactly the failure produced by the operation's
final invocation — never a substitute. -/
theorem C1_withRetry_policy (σ T : Type) (fn : σ → Except JsError T × σ)
    (config : RetryConfig) (rand : Nat → Rat) (now : Int) (st : σ) :
    (withRetry fn config rand now st).calls ≤ config.maxRetries + 1
  ∧ (∀ e, (fn st).1 = .error e →
      (parseError e now).category ∉ config.retryableCategories →
      (withRetry fn config rand now st).calls = 1
        ∧ (withRetry fn config rand now st).result = .error e)
  ∧ (∀ e, (withRetry fn config rand now st).result = .error e →
      (fn (stIter fn ((withRetry fn config rand now st).calls - 1) st)).1 = .error e) :=
  ⟨(withRetryGo_spec fn config rand now config.maxRetries st).1,
   fun e hfail hcat => withRetry_first_not_in_set fn config rand now st e hfail hcat,
   fun e he => (withRetryGo_spec fn config rand now config.maxRetries st).2 e he⟩

/-- A concrete operation that always fails with a 400 Validation error. -/
def fnValidation : Unit → Except JsError Nat × Unit :=
  fun _ => (.error (.axios "Bad Request" (some ⟨some 400, none, none⟩)), ())

theorem C1_withRetry_policy_witness :
    (withRetry fnValidation DEFAULT_RETRY_CONFIG (fun _ => 0) 0 ()).calls = 1
      ∧ (withRetry fnValidation DEFAULT_RETRY_CONFIG (fun _ => 0) 0 ()).result
          = .error (.axios "Bad Request" (some ⟨some 400, none, none⟩)) :=
  (C1_withRetry_policy Unit Nat fnValidation DEFAULT_RETRY_CONFIG (fun _ => 0) 0 ()).2.1
    (.axios "Bad Request" (some ⟨some 400, none, none⟩)) rfl (by decide)

/-! ## Retry-after fallback and the wait actually performed (C4) -/

set_option maxRecDepth 8000 in
theorem parseError_429_noHeader (msg : String) (d : Option AxiosData) (now : Int) :
    (parseError (.axios msg (some ⟨some 429, d, none⟩)) now).retryAfter = some 30 := rfl

theorem withRetry_first_delay_explicit (fn : σ → Except JsError T × σ)
    (config : RetryConfig) (rand : Nat → Rat) (now : Int) (st : σ) (e : JsError) (ra : Int)
    (hfail : (fn st).1 = .error e)
    (hretry : (parseError e now).retryable = true)
    (hcat : (parseError e now).category ∈ config.retryableCategories)
    (hmax : 1 ≤ config.maxRetries)
    (hra : (parseError e now).retryAfter = some ra) (hnz : ra ≠ 0) :
    (withRetry fn config rand now st).delays.head? = some (ra * 1000) := by
  unfold withRetry
  obtain ⟨n, hn⟩ : ∃ n, config.maxRetries = n + 1 := ⟨config.maxRetries - 1, by omega⟩
  rw [hn]
  rcases h : fn st with ⟨res, st1⟩
  rw [h] at hfail
  dsimp only at hfail
  subst hfail
  simp only [withRetryGo]
  rw [h]
  dsimp only
  have hcond : ¬((parseError e now).retryable = false
      ∨ (parseError e now).category ∉ config.retryableCategories) := by
    simp [hretry, hcat]
  rw [if_neg hcond]
  simp only [hra, List.head?_cons]
  rw [if_neg hnz]

theorem withRetry_first_delay_backoff (fn : σ → Except JsError T × σ)
    (config : RetryConfig) (rand : Nat → Rat) (now : Int) (st : σ) (e : JsError)
    (hfail : (fn st).1 = .error e)
    (hretry : (parseError e now).retryable = true)
    (hcat : (parseError e now).category ∈ config.retryableCategories)
    (hmax : 1 ≤ config.maxRetries)
    (hra : (parseError e now).retryAfter = none) :
    (withRetry fn config rand now st).delays.head?
      = some (calculateRetryDelay 0 config (rand 0)) := by
  unfold withRetry
  obtain ⟨n, hn⟩ : ∃ n, config.maxRetries = n + 1 := ⟨config.maxRetries - 1, by omega⟩
  rw [hn]
  rcases h : fn st with ⟨res, st1⟩
  rw [h] at hfail
  dsimp only at hfail
  subst hfail
  simp only [withRetryGo]
  rw [h]
  dsimp only
  have hcond : ¬((parseError e now).retryable = false
      ∨ (parseError e now).category ∉ config.retryableCategories) := by
    simp [hretry, hcat]
  rw [if_neg hcond]
  have hatt : config.maxRetries - (n + 1) = 0 := by omega
  simp only [hra, hatt, List.head?_cons]

/-- A concrete 429 failure carrying no retry-after header. -/
def err429 : JsError := .axios "Too Many Requests" (some ⟨some 429, none, none⟩)

/-- A concrete operation: a 429 failure on the first invocation, success on
the second; the state is the invocation counter. -/
def fn429 : Nat → Except JsError Nat × Nat :=
  fun k => if k = 0 then (.error err429, 1) else (.ok 7, k + 1)

set_option maxRecDepth 8000 in
/-- C4 counterexample: for a RateLimit failure with no retry-after signal the
classifier DOES set an explicit interval — the fixed fallback of 30 seconds —
and the executor then waits exactly 30000 ms instead of the computed
exponential backoff (which for attempt 0 of the default policy would lie
within [900, 1100] ms). -/
theorem C4_counterexample :
    (parseError err429 0).retryAfter = some 30
  ∧ (withRetry fn429 DEFAULT_RETRY_CONFIG (fun _ => 0) 0 0).delays = [30000]
  ∧ (withRetry fn429 DEFAULT_RETRY_CONFIG (fun _ => 0) 0 0).result = .ok 7 := by
  refine ⟨rfl, rfl, rfl⟩

/-- C4 (amended): for a RateLimit failure carrying no retry-after signal the
classifier sets the fixed fallback `retryAfter = 30` seconds (applied to
every retryable category), so the retry executor waits `retryAfter * 1000`
ms; an explicit nonzero retry-after on the classified error is honored in
milliseconds in preference to computed backoff, and the computed exponential
backoff `min(baseDelay * 2^attempt, maxDelay)` with jitter is used only when
the classified error carries no nonzero retry-after. -/
theorem C4_retryAfter_spec (σ T : Type) (fn : σ → Except JsError T × σ)
    (config : RetryConfig) (rand : Nat → Rat) (now : Int) (st : σ) (e : JsError)
    (msg : String) (d : Option AxiosData) :
    ((parseError (.axios msg (some ⟨some 429, d, none⟩)) now).retryAfter = some 30)
  ∧ (∀ ra, (fn st).1 = .error e →
      (parseError e now).retryable = true →
      (parseError e now).category ∈ config.retryableCategories →
      1 ≤ config.maxRetries →
      (parseError e now).retryAfter = some ra → ra ≠ 0 →
      (withRetry fn config rand now st).delays.head? = some (ra * 1000))
  ∧ ((fn st).1 = .error e →
      (parseError e now).retryable = true →
      (parseError e now).category ∈ config.retryableCategories →
      1 ≤ config.maxRetries →
      (parseError e now).retryAfter = none →
      (withRetry fn config rand now st).delays.head?
        = some (calculateRetryDelay 0 config (rand 0))) :=
  ⟨parseError_429_noHeader msg d now,
   fun ra hfail h1 h2 h3 h4 h5 =>
     withRetry_first_delay_explicit fn config rand now st e ra hfail h1 h2 h3 h4 h5,
   fun hfail h1 h2 h3 h4 =>
     withRetry_first_delay_backoff fn config rand now st e hfail h1 h2 h3 h4⟩

theorem C4_retryAfter_spec_witness :
    (withRetry fn429 DEFAULT_RETRY_CONFIG (fun _ => 0) 0 0).delays.head? = some 30000 :=
  (C4_retryAfter_spec Nat Nat fn429 DEFAULT_RETRY_CONFIG (fun _ => 0) 0 0 err429
      "m" none).2.1 30 rfl (by decide) (by decide) (by decide) (by decide) (by decide)

/-! ## Token store round-trip and degenerate loads (C7, C8, C9) -/

theorem decryptField_encryptField (key iv : Nat) (s : String) :
    decryptField key (encryptField key iv s) = .ok s := by
  have hall : ((s.data.map (fun c => c.toNat + (key + iv))).all
      (fun n => decide ((key + iv ≤ n) ∧ Nat.isValidChar (n - (key + iv))))) = true := by
    rw [List.all_eq_true]
    intro n hn
    rw [List.mem_map] at hn
    obtain ⟨c, hc, rfl⟩ := hn
    simp only [decide_eq_true_eq, Nat.add_sub_cancel]
    exact ⟨Nat.le_add_left _ _, c.valid⟩
  have hmap : ∀ l : List Char,
      l.map (fun c => Char.ofNat (c.toNat + (key + iv) - (key + iv))) = l := by
    intro l
    induction l with
    | nil => rfl
    | cons c l ih => simp [ih, Nat.add_sub_cancel]
  unfold decryptField encryptField
  dsimp only
  rw [if_pos hall]
  simp only [List.map_map, Function.comp_def]
  rw [hmap]

theorem loadTokens_saveTokens (key iv1 iv2 : Nat) (baseUrl : String) (t : StoredTokens) :
    loadTokens key baseUrl (saveTokens key baseUrl iv1 iv2 t) = some t := by
  unfold loadTokens saveTokens
  simp [decryptField_encryptField]

/-- C7: saving a credential record and then loading it with the same base URL
under the same machine identity returns a record equal in all fields
(accessToken, refreshToken, expiresAt, scope) to the one saved. -/
theorem C7_token_roundtrip (key iv1 iv2 : Nat) (baseUrl : String) (t : StoredTokens) :
    loadTokens key baseUrl (saveTokens key baseUrl iv1 iv2 t) = some t :=
  loadTokens_saveTokens key iv1 iv2 baseUrl t

/-- C8: `loadTokens` is a total function that returns `none` (it cannot throw)
in every degenerate case: missing file, corrupt JSON, wrong format version,
base URL different from the store's own, null `tokens` field, and a
decryption failure on either field (as arises under a different machine
identity's key). -/
theorem C8_loadTokens_degenerate (key : Nat) (baseUrl : String) :
    loadTokens key baseUrl none = none
  ∧ (∀ raw, loadTokens key baseUrl (some (.corrupt raw)) = none)
  ∧ (∀ f, f.version ≠ FILE_VERSION → loadTokens key baseUrl (some (.json f)) = none)
  ∧ (∀ f, f.baseUrl ≠ baseUrl → loadTokens key baseUrl (some (.json f)) = none)
  ∧ (∀ f, f.tokens = none → loadTokens key baseUrl (some (.json f)) = none)
  ∧ (∀ f tk m, f.tokens = some tk → decryptField key tk.accessToken = .error m →
      loadTokens key baseUrl (some (.json f)) = none)
  ∧ (∀ f tk m, f.tokens = some tk → decryptField key tk.refreshToken = .error m →
      loadTokens key baseUrl (some (.json f)) = none) := by
  refine ⟨rfl, fun raw => rfl, ?_, ?_, ?_, ?_, ?_⟩
  · intro f hv
    unfold loadTokens
    dsimp only
    rw [if_pos (Or.inl hv)]
  · intro f hb
    unfold loadTokens
    dsimp only
    rw [if_pos (Or.inr hb)]
  · intro f ht
    unfold loadTokens
    dsimp only
    split
    · rfl
    · simp [ht]
  · intro f tk m ht hd
    unfold loadTokens
    dsimp only
    split
    · rfl
    · cases hr : decryptField key tk.refreshToken <;> simp [ht, hd, hr]
  · intro f tk m ht hd
    unfold loadTokens
    dsimp only
    split
    · rfl
    · cases ha : decryptField key tk.accessToken <;> simp [ht, hd, ha]

/-- Token fields enciphered under a different machine key (`0`), so that
decryption under key `1000` fails. -/
def foreignTokens : StoredTokensEnc :=
  { accessToken := encryptField 0 0 "A"
    refreshToken := encryptField 0 0 "B"
    expiresAt := 0
    scope := "s" }

/-- A well-formed token file carrying the foreign-machine ciphertexts. -/
def foreignFile : TokenFile :=
  { version := FILE_VERSION, tokens := some foreignTokens, baseUrl := "u" }

theorem C8_loadTokens_degenerate_witness :
    loadTokens 1000 "u" (some (.json foreignFile)) = none :=
  (C8_loadTokens_degenerate 1000 "u").2.2.2.2.2.1 foreignFile
    foreignTokens "bad decrypt" rfl (by decide)

/-- C9 counterexample: at the exact boundary `expiresAt - now = 300` seconds
(expiresAt 1000 s, now 700000 ms) the code reports the token as expired
(`Date.now() >= expiresAt * 1000 - bufferMs` uses `>=`), whereas the claim
requires `false` there. -/
theorem C9_counterexample :
    ((1000 : Int) * 1000 - 700000 = 300 * 1000)
  ∧ isAccessTokenExpired 0 "b" (saveTokens 0 "b" 0 0 ⟨"a", "r", 1000, "s"⟩) 700000 = true := by
  exact ⟨by norm_num, rfl⟩

/-- C9 (amended): `isAccessTokenExpired` is true exactly when
`expiresAt * 1000 - now ≤ 300000` milliseconds (that is, `expiresAt - now ≤
300` seconds — the boundary `expiresAt - now = 300` yields `true`), and also
true whenever no credentials are loadable. -/
theorem C9_expiry_spec (key iv1 iv2 : Nat) (baseUrl : String) (t : StoredTokens) (nowMs : Int) :
    isAccessTokenExpired key baseUrl (saveTokens key baseUrl iv1 iv2 t) nowMs
      = decide (t.expiresAt * 1000 - nowMs ≤ 300000)
  ∧ isAccessTokenExpired key baseUrl none nowMs = true := by
  constructor
  · unfold isAccessTokenExpired
    rw [loadTokens_saveTokens]
    rw [decide_eq_decide]
    omega
  · rfl

/-! ## Token lifecycle algorithm (C5) -/

/-- C5: `getAccessToken` reuses an unexpired stored token with no network
call and no state change; on expiry it performs one refresh exchange and, on
success, persists the entire new record wholesale (access token, refresh
token, expiry derived from `expires_in`, scope) and returns the new access
token without invoking the interactive flow; if the refresh fails it clears
the stored credentials and hands over to the interactive flow, having made
exactly one refresh attempt; with no stored record it goes straight to the
interactive flow. -/
theorem C5_getAccessToken_algorithm (env : AuthEnv) (st : AuthState) :
    (∀ t, loadTokens env.machineKey env.baseUrl st.fs = some t →
      isAccessTokenExpired env.machineKey env.baseUrl st.fs env.nowMs = false →
      getAccessTokenM env st = (.ok t.accessToken, st))
  ∧ (∀ t resp, loadTokens env.machineKey env.baseUrl st.fs = some t →
      isAccessTokenExpired env.machineKey env.baseUrl st.fs env.nowMs = true →
      env.refreshOutcome st.refreshCalls = .ok resp →
      getAccessTokenM env st
        = (.ok resp.access_token,
           saveVia env { st with refreshCalls := st.refreshCalls + 1 }
             (respToStored env.nowMs resp)))
  ∧ (∀ t e, loadTokens env.machineKey env.baseUrl st.fs = some t →
      isAccessTokenExpired env.machineKey env.baseUrl st.fs env.nowMs = true →
      env.refreshOutcome st.refreshCalls = .error e →
      getAccessTokenM env st
        = authenticateM env { st with refreshCalls := st.refreshCalls + 1, fs := none })
  ∧ (loadTokens env.machineKey env.baseUrl st.fs = none →
      getAccessTokenM env st = authenticateM env st) := by
  refine ⟨?_, ?_, ?_, ?_⟩
  · intro t ht hexp
    simp [getAccessTokenM, ht, hexp]
  · intro t resp ht hexp hr
    simp [getAccessTokenM, ht, hexp, hr]
  · intro t e ht hexp hr
    simp [getAccessTokenM, ht, hexp, hr]
  · intro h
    simp [getAccessTokenM, h]

/-- A stored record that is long expired at the witness's current time. -/
def staleRecord : StoredTokens := ⟨"OLD", "R1", 100, "full_access"⟩

/-- The refresh response delivered to the witness scenario. -/
def freshResp : TokenResponse := ⟨"NEW", "bearer", 3600, "R2", "full_access"⟩

/-- Environment for the C5 witness: refresh succeeds, the interactive flow
is never consulted. -/
def envC5 : AuthEnv :=
  { machineKey := 0
    baseUrl := "u"
    nowMs := 1000000
    refreshOutcome := fun _ => .ok freshResp
    authOutcome := fun _ => .error (.plain "unused interactive flow")
    ivSeq := fun _ => 0 }

/-- Starting state for the C5 witness: the stale record is on disk. -/
def stC5 : AuthState :=
  { fs := saveTokens 0 "u" 0 0 staleRecord, refreshCalls := 0, authCalls := 0, saves := 0 }

theorem C5_getAccessToken_algorithm_witness :
    getAccessTokenM envC5 stC5
      = (.ok "NEW",
         saveVia envC5 { stC5 with refreshCalls := 1 } (respToStored 1000000 freshResp)) :=
  (C5_getAccessToken_algorithm envC5 stC5).2.1 staleRecord freshResp (by decide) (by decide) rfl

/-! ## Facade behaviour on failures (C2, C3) -/

theorem requestFn_non401 (env : FacadeEnv T) (st : FacadeState) (token : String)
    (a1 : AuthState) (msg : String) (r : AxiosResponse)
    (hga : getAccessTokenM env.auth st.auth = (.ok token, a1))
    (hhttp : env.http st.httpCalls = .thrown (.axios msg (some r)))
    (h401 : r.status ≠ some 401) :
    requestFn env st
      = (.error (.plain (formatErrorForUser (parseError (.axios msg (some r)) env.auth.nowMs))),
         { auth := a1, httpCalls := st.httpCalls + 1, tokensUsed := st.tokensUsed ++ [token] }) := by
  unfold requestFn
  rw [hga]
  dsimp only
  rw [hhttp]
  dsimp only
  rw [if_neg h401]

theorem withRetry_plain_first (fn : σ → Except JsError T × σ) (config : RetryConfig)
    (rand : Nat → Rat) (now : Int) (st : σ) (m : String) (st1 : σ)
    (h : fn st = (.error (.plain m), st1)) :
    withRetry fn config rand now st
      = ⟨.error (.plain m), st1, 1, [], [.plain m]⟩ := by
  unfold withRetry
  cases config.maxRetries with
  | zero => simp [withRetryGo, h]
  | succ n =>
      simp only [withRetryGo]
      rw [h]
      dsimp only
      rw [if_pos (Or.inl (show (parseError (.plain m) now).retryable = false from rfl))]

/-- C3: when the underlying HTTP call fails with a non-401 status (in
particular the retryable categories RateLimit and Server), the facade's
inner catch rethrows a plain `Error` carrying the formatted user message,
and the enclosing `withRetry` classifies every such plain error as Unknown
with `retryable = false` and performs no retry: exactly one HTTP attempt
occurs, with no waits and the plain error as the raised failure. -/
theorem C3_facade_non401_no_retry (T : Type) (env : FacadeEnv T) (rand : Nat → Rat)
    (st : FacadeState) (token : String) (a1 : AuthState) (msg : String) (r : AxiosResponse) :
    (∀ m now, parseError (.plain m) now
        = { category := .unknown, message := m,
            userMessage := getUserMessage .unknown none, suggestion := none,
            retryable := false, retryAfter := none, originalError := some (.plain m) })
  ∧ (getAccessTokenM env.auth st.auth = (.ok token, a1) →
      env.http st.httpCalls = .thrown (.axios msg (some r)) →
      r.status ≠ some 401 →
      requestM env rand st
        = ⟨.error (.plain (formatErrorForUser (parseError (.axios msg (some r)) env.auth.nowMs))),
           { auth := a1, httpCalls := st.httpCalls + 1, tokensUsed := st.tokensUsed ++ [token] },
           1, [], [.plain (formatErrorForUser (parseError (.axios msg (some r)) env.auth.nowMs))]⟩) := by
  constructor
  · intro m now
    rfl
  · intro hga hhttp h401
    unfold requestM
    exact withRetry_plain_first (requestFn env) DEFAULT_RETRY_CONFIG rand env.auth.nowMs st _ _
      (requestFn_non401 env st token a1 msg r hga hhttp h401)

/-- A stored record still far from expiry at time 0. -/
def liveRecord : StoredTokens := ⟨"TOK3", "R3", 1000000, "full_access"⟩

/-- Auth environment for the facade witnesses: the cached token is valid, so
neither the refresh exchange nor the interactive flow is ever reached. -/
def authEnvLive : AuthEnv :=
  { machineKey := 0
    baseUrl := "u"
    nowMs := 0
    refreshOutcome := fun _ => .error (.plain "unused refresh")
    authOutcome := fun _ => .error (.plain "unused interactive flow")
    ivSeq := fun _ => 0 }

/-- The facade state with the live record on disk and no calls made yet. -/
def stLive : FacadeState :=
  { auth := { fs := saveTokens 0 "u" 0 0 liveRecord, refreshCalls := 0, authCalls := 0, saves := 0 }
    httpCalls := 0
    tokensUsed := [] }

/-- A 503 response from the server on every HTTP call. -/
def err503 : JsError := .axios "Request failed with status code 503" (some ⟨some 503, none, none⟩)

/-- Facade environment whose HTTP layer always returns 503. -/
def envC3 : FacadeEnv Nat :=
  { auth := authEnvLive, http := fun _ => .thrown err503 }

theorem C3_facade_non401_no_retry_witness :
    requestM envC3 (fun _ => 0) stLive
      = ⟨.error (.plain (formatErrorForUser (parseError err503 0))),
         { auth := stLive.auth, httpCalls := 1, tokensUsed := ["TOK3"] },
         1, [], [.plain (formatErrorForUser (parseError err503 0))]⟩ :=
  (C3_facade_non401_no_retry Nat envC3 (fun _ => 0) stLive "TOK3" stLive.auth
      "Request failed with status code 503" ⟨some 503, none, none⟩).2
    (by decide) rfl (by decide)

/-- The first 401 failure thrown by the HTTP layer. -/
def err401a : JsError := .axios "Request failed with status code 401 (first)" (some ⟨some 401, none, none⟩)

/-- The 401 failure thrown by the replay of the request. -/
def err401b : JsError := .axios "Request failed with status code 401 (replay)" (some ⟨some 401, none, none⟩)

/-- A stored record not expired per the 5-minute buffer at time 0. -/
def tokC2 : StoredTokens := ⟨"TOK", "R", 1000000, "full_access"⟩

/-- Facade environment for C2: both the original call and the replay 401. -/
def envC2 : FacadeEnv Nat :=
  { auth :=
      { machineKey := 0
        baseUrl := "u"
        nowMs := 0
        refreshOutcome := fun _ => .error (.plain "unused refresh")
        authOutcome := fun _ => .error (.plain "unused interactive flow")
        ivSeq := fun _ => 0 }
    http := fun k => if k = 0 then .thrown err401a else .thrown err401b }

/-- Initial facade state for C2. -/
def stC2 : FacadeState :=
  { auth := { fs := saveTokens 0 "u" 0 0 tokC2, refreshCalls := 0, authCalls := 0, saves := 0 }
    httpCalls := 0
    tokensUsed := [] }

/-- C2 evaluated at its failing input: the stored token is not expired per
the 5-minute buffer, the HTTP call 401s, and — contrary to the claim and to
the source's own comment "Handle 401 by refreshing token and retrying once" —
the facade performs NO token refresh (`getAccessToken` returns the cached
token unchanged), replays once with the very same bearer token, and when the
replay also 401s that failure (classified Authentication, not retryable)
propagates with no further attempt: two HTTP calls in total, zero refreshes,
zero interactive flows, a single `withRetry` invocation. -/
theorem C2_no_refresh_on_401_eval :
    (requestM envC2 (fun _ => 0) stC2).result = .error err401b
  ∧ (requestM envC2 (fun _ => 0) stC2).calls = 1
  ∧ (requestM envC2 (fun _ => 0) stC2).state.httpCalls = 2
  ∧ (requestM envC2 (fun _ => 0) stC2).state.auth.refreshCalls = 0
  ∧ (requestM envC2 (fun _ => 0) stC2).state.auth.authCalls = 0
  ∧ (requestM envC2 (fun _ => 0) stC2).state.tokensUsed = ["TOK", "TOK"]
  ∧ (parseError err401b 0).category = .authentication
  ∧ (parseError err401b 0).retryable = false := by
  refine ⟨rfl, rfl, rfl, rfl, rfl, rfl, rfl, rfl⟩

/-! ## Callback handling and listener lifecycle (C6, C10) -/

/-- C6 counterexample: a callback whose `state` differs from the local state
but which also carries an `error` parameter is aborted as Denied — the
`error` check precedes the state comparison — not as StateMismatch. -/
theorem C6_counterexample :
    handleCallback "LOCAL" (.error (.plain "unused exchange")) 0
        ⟨some "CODE", some "WRONG", some "access_denied"⟩
      = { outcome := .denied "access_denied", exchangeCalled := false,
          serverClosed := true, savedRecord := none }
  ∧ FlowOutcome.denied "access_denied" ≠ FlowOutcome.stateMismatch := by
  exact ⟨rfl, by decide⟩

/-- C6 (amended): for every callback carrying no `error` parameter whose
`state` does not equal the locally generated state, the flow aborts as the
security failure StateMismatch, the listener is closed, and no token-exchange
HTTP call is made; a callback that does carry an `error` parameter aborts as
Denied first (also with the listener closed and no exchange call), even if
its state also mismatches. -/
theorem C6_stateMismatch_spec (localState : String) (ex : Except JsError TokenResponse)
    (nowMs : Int) (q : CallbackQuery) :
    (q.errorParam = none → q.state ≠ some localState →
      handleCallback localState ex nowMs q
        = { outcome := .stateMismatch, exchangeCalled := false,
            serverClosed := true, savedRecord := none })
  ∧ (∀ err, q.errorParam = some err →
      handleCallback localState ex nowMs q
        = { outcome := .denied err, exchangeCalled := false,
            serverClosed := true, savedRecord := none }) := by
  constructor
  · intro he hs
    simp [handleCallback, he, hs]
  · intro err he
    simp [handleCallback, he]

theorem C6_stateMismatch_spec_witness :
    handleCallback "S" (.error (.plain "unused exchange")) 0 ⟨some "c", some "X", none⟩
      = { outcome := .stateMismatch, exchangeCalled := false,
          serverClosed := true, savedRecord := none } :=
  (C6_stateMismatch_spec "S" (.error (.plain "unused exchange")) 0
      ⟨some "c", some "X", none⟩).1 rfl (by decide)

/-- The token response delivered by a successful exchange in the C10 trace. -/
def respC10 : TokenResponse := ⟨"ATOK", "bearer", 3600, "RTOK", "full_access"⟩

/-- C10 evaluated at its failing input: a valid callback resolves the attempt
(one exchange, one close), but because the source never cancels the 5-minute
`setTimeout`, the timer later fires and invokes `server.close()` a second
time — `closeCalls = 2` for the completed trace, contradicting "close is
never invoked a second time on any exit path". -/
theorem C10_listener_double_close_eval :
    (runFlow "S" 0 [.callbackReq ⟨some "CODE", some "S", none⟩ (.ok respC10)]).closeCalls = 1
  ∧ (runFlow "S" 0 [.callbackReq ⟨some "CODE", some "S", none⟩ (.ok respC10)]).settled
      = some (.ok "ATOK")
  ∧ (runFlow "S" 0 [.callbackReq ⟨some "CODE", some "S", none⟩ (.ok respC10),
        .timeoutFire]).closeCalls = 2
  ∧ (runFlow "S" 0 [.callbackReq ⟨some "CODE", some "S", none⟩ (.ok respC10),
        .timeoutFire]).settled = some (.ok "ATOK")
  ∧ (runFlow "S" 0 [.callbackReq ⟨some "CODE", some "S", none⟩ (.ok respC10),
        .timeoutFire]).exchanges = 1 := by
  refine ⟨rfl, rfl, rfl, rfl, rfl⟩

end Reaudit
